import Mathlib

/-!
Verification development for the Theia `default-workspace-server.ts` file
(packages/workspace/src/node/default-workspace-server.ts).

The file is shallowly embedded: JavaScript values that flow through the
resolver are modelled by an inductive `Json` type, JavaScript property
access and indexing (which can throw a `TypeError` on `null`) return
`Except JsError`, the persisted `recentworkspace.json` file is modelled
at the level of its read outcome (`StoredFile`), and the asynchronous
user prompt shown on a parse error is modelled by the selection the user
eventually makes (`PromptChoice`).
-/

/-- A JSON value, as produced by `JSON.parse`.  `num` carries an integer:
no claim depends on fractional numbers, and JavaScript number semantics
beyond truthiness are not consulted by the code under study. -/
inductive Json where
  | null : Json
  | bool : Bool → Json
  | num : Int → Json
  | str : String → Json
  | arr : List Json → Json
  | obj : List (String × Json) → Json
deriving Repr

/-- The one JavaScript fault the embedded code can raise: a `TypeError`
from reading a property of `null`. -/
inductive JsError where
  | typeError : JsError
deriving Repr, DecidableEq

/-- JavaScript truthiness of a JSON value: `null`, `false`, `0` and the
empty string are falsy; every array and object is truthy. -/
def jsTruthy : Json → Bool
  | .null => false
  | .bool b => b
  | .num n => n != 0
  | .str s => s != ""
  | .arr _ => true
  | .obj _ => true

/-- Truthiness of a possibly-`undefined` JavaScript value (`undefined`
is falsy). -/
def jsTruthyOpt : Option Json → Bool
  | none => false
  | some j => jsTruthy j

/-- JavaScript property read `v[k]` on a parsed JSON value.  Reading a
property of `null` throws a `TypeError`; reading an absent property of
an object, or any property of an array or primitive, yields `undefined`
(`none`). -/
def jsGetField (v : Json) (k : String) : Except JsError (Option Json) :=
  match v with
  | .null => .error .typeError
  | .obj fields => .ok ((fields.find? (fun p => p.1 = k)).map (fun p => p.2))
  | .arr _ => .ok none
  | _ => .ok none

/-- JavaScript index read `v[0]`.  On an array it is the head element
(`undefined` when empty); on a string it is the one-character string at
position 0; on `null` it throws; on anything else it is `undefined`. -/
def jsIndex0 (v : Json) : Except JsError (Option Json) :=
  match v with
  | .null => .error .typeError
  | .arr xs => .ok xs.head?
  | .str s => .ok (if s = "" then none else some (.str (String.singleton s.front)))
  | .obj fields => .ok ((fields.find? (fun p => p.1 = "0")).map (fun p => p.2))
  | _ => .ok none

/-- Model of Node `path.isAbsolute` for POSIX paths: the path is
non-empty and its first character is the separator. -/
def isAbsolute (p : String) : Bool :=
  match p.data with
  | [] => false
  | c :: _ => c = '/'

/-- Model of Node `path.join cwd p` for the way the source uses it
(joining a working directory with a relative path); segment
normalisation is not modelled because no claim depends on it. -/
def pathJoin (a b : String) : String :=
  if a = "" then b else if b = "" then a else a ++ "/" ++ b

namespace FileUri

/-- Model of `FileUri.create(arg).toString()` from `@theia/core` (an
external library): the canonical-root, file-URI form of a POSIX path.
Percent-encoding is not modelled; no claim depends on it. -/
def create (p : String) : String := "file://" ++ p

end FileUri

/-- The arguments object handed to `WorkspaceCliContribution.setArguments`
by yargs: the positional list `args._` and the value of the deprecated
option given as `root-dir`.  Elements are modelled as strings (the only
values the claims concern); `none` is `undefined`. -/
structure YargsArguments where
  positional : List String
  rootDir : Option String
deriving Repr, DecidableEq

/-- Truthiness of a possibly-`undefined` string (the empty string and
`undefined` are falsy). -/
def jsTruthyStr : Option String → Bool
  | none => false
  | some s => s != ""

/-- Embedding of `WorkspaceCliContribution.setArguments`: take `args._[2]`;
if falsy, fall back to the deprecated option given as `root-dir`; if that
is also falsy, resolve the deferred with `undefined`.  A relative path is
joined onto the current working directory.  The returned value is what
the `workspaceRoot` deferred is resolved with. -/
def setArguments (cwd : String) (args : YargsArguments) : Option String :=
  let ws0 := args.positional[2]?
  let ws1 := if jsTruthyStr ws0 then ws0 else args.rootDir
  if jsTruthyStr ws1 then
    ws1.map (fun p => if isAbsolute p then p else pathJoin cwd p)
  else
    none

/-- The persisted file (`<home>/.theia/recentworkspace.json`) as seen by
the read path, abstracted at the level of the outcome of
`readFile` / `trim` / `JSON.parse`:
absent on disk; present with contents blank after trimming; present with
non-blank contents on which `JSON.parse` throws; or present and parsing
to the JSON value `j`. -/
inductive StoredFile where
  | absent : StoredFile
  | blank (raw : String) : StoredFile
  | malformed (raw : String) : StoredFile
  | parsed (j : Json) : StoredFile
deriving Repr

/-- Model of `fs.pathExists` applied to the storage path: the file is on
disk in every state but `absent`. -/
def pathExists : StoredFile → Bool
  | .absent => false
  | _ => true

/-- The selection the user eventually makes in the parse-error warning
prompt (`Fix`, `Delete`, or dismissing the prompt). -/
inductive PromptChoice where
  | fix : PromptChoice
  | delete : PromptChoice
  | dismiss : PromptChoice
deriving Repr, DecidableEq

namespace WorkspaceData

/-- Embedding of `WorkspaceData.is`: the check `data.recentRoots !== undefined`.
The property read throws a `TypeError` when `data` is `null`. -/
def is (data : Json) : Except JsError Bool :=
  (jsGetField data "recentRoots").map (fun f => f.isSome)

end WorkspaceData

/-- Embedding of `DefaultWorkspaceServer.readFromUserHome`.  Returns the
parsed config when the file exists, is non-blank, parses, and passes
`WorkspaceData.is`; otherwise `undefined`.  On a parse error the warning
prompt is shown and the file is removed only when the user selects
`Delete`; the read itself returns `undefined` in every prompt outcome.
The function also returns the state of the stored file afterwards. -/
def readFromUserHome (file : StoredFile) (choice : PromptChoice) :
    Except JsError (Option Json × StoredFile) :=
  match file with
  | .absent => .ok (none, .absent)
  | .blank raw => .ok (none, .blank raw)
  | .malformed raw =>
      .ok (none, if choice = .delete then .absent else .malformed raw)
  | .parsed j =>
      match WorkspaceData.is j with
      | .error e => .error e
      | .ok b => .ok (if b then some j else none, .parsed j)

/-- Embedding of `DefaultWorkspaceServer.getRootURIFromCli`: convert the
CLI-captured path, when defined, to its file-URI string. -/
def getRootURIFromCli (workspaceRoot : Option String) : Option String :=
  workspaceRoot.map (fun arg => FileUri.create arg)

/-- Embedding of `DefaultWorkspaceServer.init`: resolve the root from
the CLI when that value is truthy; otherwise read the persisted file
and, when the returned data is truthy and its `recentRoots` property is
truthy, take element 0 of that property.  Returns the value the `root`
deferred is resolved with, together with the stored file afterwards. -/
def init (workspaceRoot : Option String) (file : StoredFile) (choice : PromptChoice) :
    Except JsError (Option Json × StoredFile) :=
  let root0 : Option Json := (getRootURIFromCli workspaceRoot).map Json.str
  if jsTruthyOpt root0 then
    .ok (root0, file)
  else
    match readFromUserHome file choice with
    | .error e => .error e
    | .ok (data, file2) =>
        match data with
        | none => .ok (root0, file2)
        | some d =>
            if jsTruthy d then
              match jsGetField d "recentRoots" with
              | .error e => .error e
              | .ok fv =>
                  if jsTruthyOpt fv then
                    match fv with
                    | some fvv =>
                        match jsIndex0 fvv with
                        | .error e => .error e
                        | .ok r => .ok (r, file2)
                    | none => .ok (root0, file2)
                  else .ok (root0, file2)
            else .ok (root0, file2)

/-- The filesystem state relevant to the write path: the stored file and
whether the parent directory of the storage path (together with all its
ancestors — `fs.mkdirs` creates the whole chain) exists. -/
structure FsState where
  file : StoredFile
  parentExists : Bool
deriving Repr

/-- The JSON object `recentRoots: [uri]` that `setRoot` passes to
`writeToUserHome`, as serialised by `fs.writeJson`. -/
def workspaceDataJson (uri : String) : Json :=
  .obj [("recentRoots", .arr [.str uri])]

/-- Embedding of `DefaultWorkspaceServer.writeToUserHome`: when the
storage file does not exist, create the parent directory chain
(`fs.mkdirs`); then write `data`, fully overwriting the file. -/
def writeToUserHome (fs : FsState) (data : Json) : FsState :=
  let fs1 := if pathExists fs.file then fs else { fs with parentExists := true }
  { fs1 with file := .parsed data }

/-- The in-memory server state after resolution: the resolved root (the
value held by the `root` deferred) and the filesystem state. -/
structure ServerState where
  root : Option Json
  fs : FsState
deriving Repr

/-- Embedding of `DefaultWorkspaceServer.getRoot`: the resolved root,
straight from memory. -/
def getRoot (st : ServerState) : Option Json := st.root

/-- Embedding of `DefaultWorkspaceServer.setRoot`: replace the in-memory
root with `uri` and persist `recentRoots: [uri]` via `writeToUserHome`. -/
def setRoot (st : ServerState) (uri : String) : ServerState :=
  { root := some (.str uri), fs := writeToUserHome st.fs (workspaceDataJson uri) }

/-- The startup pipeline: CLI capture (`setArguments`) feeding the
one-time resolution (`init`), producing the server state whose `root`
answers `getRoot`. -/
def startup (cwd : String) (args : YargsArguments) (fs : FsState)
    (choice : PromptChoice) : Except JsError ServerState :=
  match init (setArguments cwd args) fs.file choice with
  | .error e => .error e
  | .ok (r, f2) => .ok { root := r, fs := { fs with file := f2 } }

/-! ## Helper lemmas -/

/-- The file-URI form of any path is a non-empty (hence truthy) string. -/
theorem fileUri_ne_empty (p : String) : FileUri.create p ≠ "" := by
  intro h
  have h7 : ("file://" : String).length = 7 := rfl
  have h2 := congrArg String.length h
  rw [show FileUri.create p = "file://" ++ p from rfl, String.length_append] at h2
  simp [h7] at h2

/-- When the CLI deferred holds a path, `init` resolves to its file-URI
form and leaves the stored file alone. -/
theorem init_cli (w : String) (file : StoredFile) (choice : PromptChoice) :
    init (some w) file choice = .ok (some (.str (FileUri.create w)), file) := by
  have hne : FileUri.create w ≠ "" := fileUri_ne_empty w
  simp [init, getRootURIFromCli, jsTruthyOpt, jsTruthy, bne_iff_ne, hne]

/-- An absolute path is non-empty, hence truthy. -/
theorem isAbsolute_ne_empty (p : String) (h : isAbsolute p = true) : p ≠ "" := by
  intro he
  subst he
  exact absurd h (by decide)

/-! ## Claim theorems -/

/-- Claim C1: for every absolute path `P` supplied as the positional CLI
argument (index 2 of the positional list), `getRoot` resolves to the
canonical-root (file-URI) form of `P`, whatever the persisted file holds:
the CLI source takes precedence in the one-time resolution. -/
theorem cli_absolute_overrides_persisted (cwd a0 a1 P : String)
    (rd : Option String) (fs : FsState) (choice : PromptChoice)
    (hAbs : isAbsolute P = true) :
    (startup cwd ⟨[a0, a1, P], rd⟩ fs choice).map getRoot
      = .ok (some (.str (FileUri.create P))) := by
  have hne : P ≠ "" := isAbsolute_ne_empty P hAbs
  have hsa : setArguments cwd ⟨[a0, a1, P], rd⟩ = some P := by
    simp [setArguments, jsTruthyStr, List.get?, bne_iff_ne, hne, hAbs]
  simp [startup, hsa, init_cli, getRoot, Except.map]

/-- Witness for C1 at a concrete absolute path and a persisted file that
would itself resolve elsewhere. -/
theorem cli_absolute_overrides_persisted_witness :
    (startup "/cwd" ⟨["node", "main", "/abs"], some "/other"⟩
        ⟨.parsed (.obj [("recentRoots", .arr [.str "/x"])]), true⟩ .dismiss).map getRoot
      = .ok (some (.str (FileUri.create "/abs"))) :=
  cli_absolute_overrides_persisted "/cwd" "node" "main" "/abs" (some "/other")
    ⟨.parsed (.obj [("recentRoots", .arr [.str "/x"])]), true⟩ .dismiss (by decide)

/-- Claim C2, counterexample: with no CLI argument and the persisted file
parsed to recentRoots `["/a", "/b"]`, `getRoot` resolves to the stored
string `"/a"` verbatim, which differs from the canonical-root (file-URI)
form of `"/a"`: the claimed conversion does not happen on the persisted
path. -/
theorem persisted_root_not_canonicalized :
    (startup "/cwd" ⟨[], none⟩
        ⟨.parsed (.obj [("recentRoots", .arr [.str "/a", .str "/b"])]), true⟩ .dismiss).map getRoot
      = .ok (some (.str "/a")) ∧
    some (Json.str "/a") ≠ some (Json.str (FileUri.create "/a")) := by
  refine ⟨rfl, fun h => ?_⟩
  have h2 : "/a" = FileUri.create "/a" := by
    injection (Option.some.inj h)
  exact absurd h2 (by decide)

/-- Claim C2, amended: when no CLI argument is given and the persisted
file parses to an object whose `recentRoots` field is the list
`X :: rest`, `getRoot` resolves to the first element `X` exactly as
stored (entries written by `setRoot` are already in canonical file-URI
form); the later elements `rest` are never consulted. -/
theorem persisted_root_first_element_verbatim (X : String) (rest : List Json)
    (choice : PromptChoice) :
    init none (.parsed (.obj [("recentRoots", .arr (.str X :: rest))])) choice
      = .ok (some (.str X), .parsed (.obj [("recentRoots", .arr (.str X :: rest))])) := rfl

/-- Claim C3 (code bug): on the valid JSON value `null`, the shape guard
`WorkspaceData.is` reads `recentRoots` off `null` and throws a
`TypeError` that escapes `readFromUserHome` and the whole resolution,
contradicting the claim that every valid JSON without `recentRoots` is
treated as absence of prior state with no thrown fault. -/
theorem null_persisted_file_throws :
    WorkspaceData.is Json.null = .error .typeError ∧
    readFromUserHome (.parsed Json.null) .dismiss = .error .typeError ∧
    init none (.parsed Json.null) .dismiss = .error .typeError :=
  ⟨rfl, rfl, rfl⟩

/-- Claim C4: for every uri and every prior state, `setRoot` leaves the
persisted file holding exactly the object `recentRoots: [uri]` (full
overwrite, no merge), and after `setRoot u1` then `setRoot u2` the file
holds only `[u2]` while `getRoot` answers `u2` straight from the
in-memory root, which never consults the file. -/
theorem setRoot_overwrite_semantics (st : ServerState) (u1 u2 : String) :
    (setRoot st u1).fs.file = .parsed (workspaceDataJson u1) ∧
    getRoot (setRoot st u1) = some (.str u1) ∧
    (setRoot (setRoot st u1) u2).fs.file = .parsed (workspaceDataJson u2) ∧
    getRoot (setRoot (setRoot st u1) u2) = some (.str u2) :=
  ⟨rfl, rfl, rfl, rfl⟩

/-- Claim C5: a persisted file that is non-blank but fails to parse as
JSON makes the resolution pass return no data with no fault (so with no
CLI argument the root resolves to empty), and the malformed file is left
exactly as it was unless the user selects the Delete action. -/
theorem malformed_file_recovery (raw : String) (choice : PromptChoice) :
    init none (.malformed raw) choice
      = .ok (none, if choice = PromptChoice.delete
                   then StoredFile.absent else .malformed raw) := by
  cases choice <;> rfl

/-- Claim C6: a relative path `R` given as the positional CLI argument
is captured as `pathJoin cwd R`, and the resolved root is the
canonical-root (file-URI) form of that absolute path. -/
theorem cli_relative_joined_with_cwd (cwd a0 a1 R : String)
    (rd : Option String) (fs : FsState) (choice : PromptChoice)
    (hrel : isAbsolute R = false) (hne : R ≠ "") :
    setArguments cwd ⟨[a0, a1, R], rd⟩ = some (pathJoin cwd R) ∧
    (startup cwd ⟨[a0, a1, R], rd⟩ fs choice).map getRoot
      = .ok (some (.str (FileUri.create (pathJoin cwd R)))) := by
  have hsa : setArguments cwd ⟨[a0, a1, R], rd⟩ = some (pathJoin cwd R) := by
    simp [setArguments, jsTruthyStr, List.get?, bne_iff_ne, hne, hrel]
  exact ⟨hsa, by simp [startup, hsa, init_cli, getRoot, Except.map]⟩

/-- Witness for C6 at a concrete relative path. -/
theorem cli_relative_joined_with_cwd_witness :
    setArguments "/cwd" ⟨["node", "main", "proj"], none⟩ = some (pathJoin "/cwd" "proj") ∧
    (startup "/cwd" ⟨["node", "main", "proj"], none⟩ ⟨.absent, true⟩ .dismiss).map getRoot
      = .ok (some (.str (FileUri.create (pathJoin "/cwd" "proj")))) :=
  cli_relative_joined_with_cwd "/cwd" "node" "main" "proj" none
    ⟨.absent, true⟩ .dismiss (by decide) (by decide)

/-- Claim C7: with no CLI argument, a persisted file that is absent, or
present with contents blank after trimming, yields no data and the root
resolves to empty with no fault. -/
theorem absent_or_blank_file_no_data (raw : String) (choice : PromptChoice) :
    init none .absent choice = .ok (none, .absent) ∧
    init none (.blank raw) choice = .ok (none, .blank raw) :=
  ⟨rfl, rfl⟩

/-- Claim C8: `setRoot` called while the parent directory of the storage
path is missing (so the storage file itself is absent) succeeds, creating
the parent directory chain before writing the file. -/
theorem setRoot_creates_parent_dirs (st : ServerState) (u : String)
    (_hpar : st.fs.parentExists = false) (hfile : st.fs.file = .absent) :
    (setRoot st u).fs.parentExists = true ∧
    (setRoot st u).fs.file = .parsed (workspaceDataJson u) := by
  refine ⟨?_, rfl⟩
  simp [setRoot, writeToUserHome, hfile, pathExists]

/-- Witness for C8 starting from a missing directory and file. -/
theorem setRoot_creates_parent_dirs_witness :
    (setRoot ⟨none, ⟨.absent, false⟩⟩ "file:///w").fs.parentExists = true ∧
    (setRoot ⟨none, ⟨.absent, false⟩⟩ "file:///w").fs.file
      = .parsed (workspaceDataJson "file:///w") :=
  setRoot_creates_parent_dirs ⟨none, ⟨.absent, false⟩⟩ "file:///w" rfl rfl

/-- Claim C9: the positional workspace path is read from index 2 of the
positional list; whenever that slot is missing or falsy, the deprecated
option given as `root-dir` is used instead, and when that too is absent
or falsy the captured CLI value is unset. -/
theorem positional_index2_with_root_dir_fallback (cwd : String)
    (xs : List String) (rd : Option String)
    (hmiss : xs[2]? = none ∨ xs[2]? = some "") :
    setArguments cwd ⟨xs, rd⟩
      = match rd with
        | none => none
        | some r => if r = "" then none
                    else some (if isAbsolute r then r else pathJoin cwd r) := by
  rcases hmiss with h | h <;>
    cases rd with
    | none => simp [setArguments, jsTruthyStr, h]
    | some r =>
        rcases eq_or_ne r "" with hr | hr <;>
          simp [setArguments, jsTruthyStr, h, hr, bne_iff_ne]

/-- Witness for C9: a two-element positional list (so index 2 is missing)
falls back to the deprecated option. -/
theorem positional_index2_with_root_dir_fallback_witness :
    setArguments "/cwd" ⟨["node", "main"], some "proj"⟩
      = match some "proj" with
        | none => none
        | some r => if r = "" then none
                    else some (if isAbsolute r then r else pathJoin "/cwd" r) :=
  positional_index2_with_root_dir_fallback "/cwd" ["node", "main"] (some "proj")
    (Or.inl rfl)


/-- Claim C10: with no CLI argument and a persisted file parsing to an
object whose `recentRoots` field is the empty array, resolution
completes normally and the root resolves to empty: indexing the empty
array yields the unset value, not an error. -/
theorem empty_recent_roots_resolves_empty (fields : List (String × Json))
    (choice : PromptChoice)
    (hfind : fields.find? (fun p => p.1 = "recentRoots")
      = some ("recentRoots", .arr [])) :
    init none (.parsed (.obj fields)) choice
      = .ok (none, .parsed (.obj fields)) := by
  simp [init, readFromUserHome, WorkspaceData.is, jsGetField, getRootURIFromCli,
        jsTruthyOpt, jsTruthy, jsIndex0, hfind, Except.map]

/-- Witness for C10 at the one-field object with an empty array. -/
theorem empty_recent_roots_resolves_empty_witness :
    init none (.parsed (.obj [("recentRoots", .arr [])])) .dismiss
      = .ok (none, .parsed (.obj [("recentRoots", .arr [])])) :=
  empty_recent_roots_resolves_empty [("recentRoots", .arr [])] .dismiss rfl
